import Mathlib

/-!
Shallow embedding of the QuantLLM analysis pipeline
(`src/graph/analysisGraph.ts` and the pattern agent) in Lean 4.
Prices are modelled as exact rationals; JavaScript numeric literals
(`1e-9`, `0.001`, `1.001`, `0.999`, `0.5`, `0.4`) become the
corresponding rationals.
-/

namespace QuantLLM

/-- A single OHLCV candle (`Candle` in `types.ts`); the `open` field is
renamed `open_` because `open` is a Lean keyword. -/
structure Candle where
  time : ℤ
  open_ : ℚ
  high : ℚ
  low : ℚ
  close : ℚ
  volume : ℚ
deriving DecidableEq, Inhabited

/-- Candlestick pattern categories of `PatternOut.pattern`. -/
inductive Pattern where
  | BullishEngulfing
  | BearishEngulfing
  | Doji
  | None
deriving DecidableEq, Inhabited

/-- `PatternOut` from `types.ts`: pattern class, strength, and the optional
AI-generated summary. -/
structure PatternOut where
  pattern : Pattern
  strength : ℚ
  aiSummary : Option String := none
deriving DecidableEq, Inhabited

/-- The `1e-9` epsilon guard used in the engulfing strength formula. -/
def eps : ℚ := 1 / 1000000000

/-- Environment for the optional narrative enrichment in `PatternAgent`:
the `PATTERN_AI === 'true'` flag, whether `GEMINI_API_KEY` is set, and the
outcome of `GeminiService.generateResponse` on a given prompt (`.error`
covers both a throwing constructor and a failing call, which the source
catches and swallows). -/
structure EnrichEnv where
  patternAI : Bool
  geminiKey : Bool
  response : String → Except String String

/-- Attach `out.aiSummary = summary.slice(0, 200)` when enrichment is
enabled and the service call succeeds; the empty catch block of the source
means a failing call leaves `out` unchanged. -/
def enrich (env : EnrichEnv) (prompt : String) (out : PatternOut) : PatternOut :=
  if env.patternAI && env.geminiKey then
    match env.response prompt with
    | .ok summary => { out with aiSummary := some (summary.take 200) }
    | .error _ => out
  else out

/-- `PatternAgent` from the pattern-agent source: classifies the last two
candles as Doji / BullishEngulfing / BearishEngulfing / None with a
strength score, optionally enriched with an AI summary. -/
def PatternAgent (env : EnrichEnv) (cs : List Candle) : PatternOut :=
  if cs.length < 2 then { pattern := .None, strength := 0 }
  else
    let prev := cs.getD (cs.length - 2) default
    let last := cs.getD (cs.length - 1) default
    let prevBody := |prev.close - prev.open_|
    let lastBody := |last.close - last.open_|
    let isDoji := lastBody ≤ 1 / 1000 * last.close
    if isDoji then
      enrich env "Explain what a Doji means succinctly for a trader (1 sentence)."
        { pattern := .Doji, strength := 2 / 5 }
    else
      let lastBull := last.close > last.open_
      let lastBear := last.close < last.open_
      let prevBull := prev.close > prev.open_
      let prevBear := prev.close < prev.open_
      let engulfs := min last.open_ last.close ≤ min prev.open_ prev.close ∧
        max last.open_ last.close ≥ max prev.open_ prev.close
      if lastBull ∧ prevBear ∧ engulfs then
        enrich env "Explain the trade significance of a bullish engulfing pattern succinctly (1 sentence)."
          { pattern := .BullishEngulfing, strength := min 1 (lastBody / (prevBody + eps)) }
      else if lastBear ∧ prevBull ∧ engulfs then
        enrich env "Explain the trade significance of a bearish engulfing pattern succinctly (1 sentence)."
          { pattern := .BearishEngulfing, strength := min 1 (lastBody / (prevBody + eps)) }
      else { pattern := .None, strength := 0 }

/-- An entry of the pattern-event list built by `computePatternEvents`. -/
structure PatternEvent where
  index : ℕ
  pattern : Pattern
  strength : ℚ
deriving DecidableEq, Inhabited

/-- Body of the `computePatternEvents` loop at position `i ≥ 1`: the event
pushed for the candle pair `(candles[i-1], candles[i])`, if any. -/
def eventAt (candles : List Candle) (i : ℕ) : Option PatternEvent :=
  let prev := candles.getD (i - 1) default
  let last := candles.getD i default
  let prevBody := |prev.close - prev.open_|
  let lastBody := |last.close - last.open_|
  let isDoji := lastBody ≤ 1 / 1000 * last.close
  if isDoji then some { index := i, pattern := .Doji, strength := 2 / 5 }
  else
    let lastBull := last.close > last.open_
    let lastBear := last.close < last.open_
    let prevBull := prev.close > prev.open_
    let prevBear := prev.close < prev.open_
    let engulfs := min last.open_ last.close ≤ min prev.open_ prev.close ∧
      max last.open_ last.close ≥ max prev.open_ prev.close
    if lastBull ∧ prevBear ∧ engulfs then
      some { index := i, pattern := .BullishEngulfing,
             strength := min 1 (lastBody / (prevBody + eps)) }
    else if lastBear ∧ prevBull ∧ engulfs then
      some { index := i, pattern := .BearishEngulfing,
             strength := min 1 (lastBody / (prevBody + eps)) }
    else none

/-- `computePatternEvents`: scans every consecutive candle pair
(`for i = 1; i < candles.length`) and collects the detected events. -/
def computePatternEvents (candles : List Candle) : List PatternEvent :=
  (List.range' 1 (candles.length - 1)).filterMap (eventAt candles)

/-- Signal direction (`'BUY' | 'SELL'`). -/
inductive SignalType where
  | BUY
  | SELL
deriving DecidableEq, Inhabited

/-- A combined BUY/SELL signal produced by `computeSignals`. -/
structure SignalEvent where
  index : ℕ
  time : ℤ
  type : SignalType
  score : ℚ
  reason : String
deriving DecidableEq, Inhabited

/-- The `patternByIndex` map of `computeSignals`: events are inserted in
list order with `Map.set`, so a later event with the same index wins —
`foldl` with overwrite reproduces the lookup. -/
def patternByIndex (events : List PatternEvent) (i : ℕ) : Option PatternEvent :=
  events.foldl (fun acc ev => if ev.index = i then some ev else acc) none

/-- The `pat` variable of the `computeSignals` loop:
`patternByIndex.get(i) || patternByIndex.get(i - 1)` — the event at `i`
when one exists, otherwise the event at `i - 1`. -/
def matchedPattern (events : List PatternEvent) (i : ℕ) : Option PatternEvent :=
  (patternByIndex events i).orElse fun _ => patternByIndex events (i - 1)

/-- Body of the `computeSignals` loop at index `i`: the signal pushed at
`i`, if any. The BUY branch is tested first and each branch `continue`s,
so at most one signal per index. -/
def signalAt (candles : List Candle) (rsiSeries ema12 ema26 : List ℚ)
    (events : List PatternEvent) (i : ℕ) : Option SignalEvent :=
  let time := (candles.getD i default).time
  let r := rsiSeries.getD i 0
  let up := ema12.getD i 0 > ema26.getD i 0 * (1001 / 1000)
  let down := ema12.getD i 0 < ema26.getD i 0 * (999 / 1000)
  match matchedPattern events i with
  | some pat =>
    if up ∧ r > 55 ∧ r < 70 ∧ pat.pattern = .BullishEngulfing then
      some { index := i, time := time, type := .BUY,
             score := 1 / 2 + min (1 / 2) (pat.strength * (1 / 2)),
             reason := "Uptrend + RSI>55 + Bullish Engulfing" }
    else if down ∧ r < 45 ∧ r > 30 ∧ pat.pattern = .BearishEngulfing then
      some { index := i, time := time, type := .SELL,
             score := 1 / 2 + min (1 / 2) (pat.strength * (1 / 2)),
             reason := "Downtrend + RSI<45 + Bearish Engulfing" }
    else none
  | none => none

/-- `computeSignals`: scans indices `26 ≤ i < candles.length` in order and
collects the emitted signals. -/
def computeSignals (candles : List Candle) (rsiSeries ema12 ema26 : List ℚ)
    (events : List PatternEvent) : List SignalEvent :=
  (List.range' 26 (candles.length - 26)).filterMap
    (signalAt candles rsiSeries ema12 ema26 events)

/-- Modelled from the spec: `rsi` of `src/utils/technical.ts` is not under
`src/`. Wilder-style RSI over the closes with the neutral `50` fallback for
inputs shorter than `period + 1` (§4.1: callable on any growing prefix,
pure, bounded oscillator). -/
def rsiLast (closes : List ℚ) (period : ℕ) : ℚ :=
  if closes.length < period + 1 ∨ period = 0 then 50
  else
    let changes := (closes.zip closes.tail).map fun p => p.2 - p.1
    let seedGain := ((changes.take period).map fun c => max c 0).sum / period
    let seedLoss := ((changes.take period).map fun c => max (-c) 0).sum / period
    let rest := changes.drop period
    let avgGain := rest.foldl (fun a c => (a * ((period : ℚ) - 1) + max c 0) / period) seedGain
    let avgLoss := rest.foldl (fun a c => (a * ((period : ℚ) - 1) + max (-c) 0) / period) seedLoss
    if avgLoss = 0 then 100 else 100 - 100 / (1 + avgGain / avgLoss)

/-- Modelled from the spec: `ema` of `src/utils/technical.ts` is not under
`src/`. Standard EMA seeded by the simple average of the first `period`
closes, then recursively smoothed with `k = 2/(period+1)` (§4.1); inputs
shorter than the period fall back to the simple average. -/
def emaLast (closes : List ℚ) (period : ℕ) : ℚ :=
  if closes.length = 0 ∨ period = 0 then 0
  else if closes.length < period then closes.sum / closes.length
  else
    let seed := (closes.take period).sum / period
    let k : ℚ := 2 / ((period : ℚ) + 1)
    (closes.drop period).foldl (fun a c => c * k + a * (1 - k)) seed

/-- `computeRsiSeries`: one RSI value per candle, each recomputed from the
prefix `closes.slice(0, i + 1)`. -/
def computeRsiSeries (closes : List ℚ) (period : ℕ) : List ℚ :=
  (List.range closes.length).map fun i => rsiLast (closes.take (i + 1)) period

/-- `computeEmaSeries`: one EMA value per candle, each recomputed from the
prefix `closes.slice(0, i + 1)`. -/
def computeEmaSeries (closes : List ℚ) (period : ℕ) : List ℚ :=
  (List.range closes.length).map fun i => emaLast (closes.take (i + 1)) period

/-- The `indicator` sub-object of the visuals bundle. -/
structure VisualsIndicator where
  rsi : List ℚ
  overbought : ℚ
  oversold : ℚ
deriving DecidableEq, Inhabited

/-- The `trend` sub-object of the visuals bundle. -/
structure VisualsTrend where
  ema12 : List ℚ
  ema26 : List ℚ
deriving DecidableEq, Inhabited

/-- The visuals bundle returned by `computeVisualsAndSignals`. -/
structure Visuals where
  price : List ℚ
  indicator : VisualsIndicator
  trend : VisualsTrend
  patternEvents : List PatternEvent
  combinedSignals : List SignalEvent
  times : List ℤ
deriving DecidableEq, Inhabited

/-- `computeVisualsAndSignals`: derives the full RSI/EMA series, the
pattern events and the combined signals from the candle sequence alone. -/
def computeVisualsAndSignals (candles : List Candle) : Visuals × List SignalEvent :=
  let closes := candles.map (·.close)
  let times := candles.map (·.time)
  let rsiSeries := computeRsiSeries closes 14
  let ema12 := computeEmaSeries closes 12
  let ema26 := computeEmaSeries closes 26
  let patternEvents := computePatternEvents candles
  let signals := computeSignals candles rsiSeries ema12 ema26 patternEvents
  ({ price := closes,
     indicator := { rsi := rsiSeries, overbought := 70, oversold := 30 },
     trend := { ema12 := ema12, ema26 := ema26 },
     patternEvents := patternEvents,
     combinedSignals := signals,
     times := times }, signals)

/-- Left-pad a digit string with zeros up to width `d`
(used to render the fractional part of `toFixed`). -/
def padLeftZeros (s : String) (d : ℕ) : String :=
  String.mk (List.replicate (d - s.length) '0') ++ s

/-- Round half away from zero, the rounding of JavaScript `toFixed`
on exactly-representable inputs. -/
def roundHalfAway (x : ℚ) : ℤ :=
  if 0 ≤ x then ⌊x + 1 / 2⌋ else -⌊-x + 1 / 2⌋

/-- `Number.prototype.toFixed(d)` modelled over exact rationals: decimal
rendering with `d` fractional digits, rounding half away from zero. -/
def toFixed (x : ℚ) (d : ℕ) : String :=
  let n := roundHalfAway (x * (10 : ℚ) ^ d)
  let sign := if n < 0 then "-" else ""
  let m := n.natAbs
  if d = 0 then sign ++ Nat.repr (m / 10 ^ d)
  else sign ++ Nat.repr (m / 10 ^ d) ++ "." ++ padLeftZeros (Nat.repr (m % 10 ^ d)) d

/-- Two-digit zero-padded decimal field. -/
def pad2 (n : ℕ) : String :=
  if n < 10 then "0" ++ Nat.repr n else Nat.repr n

/-- Four-digit zero-padded decimal field. -/
def pad4 (n : ℕ) : String :=
  if n < 10 then "000" ++ Nat.repr n
  else if n < 100 then "00" ++ Nat.repr n
  else if n < 1000 then "0" ++ Nat.repr n
  else Nat.repr n

/-- `new Date(secs * 1000).toISOString()` for an integer number of epoch
seconds: proleptic-Gregorian civil date from the day count, then
`YYYY-MM-DDTHH:MM:SS.000Z` (milliseconds are always zero because the
candle time is whole seconds). -/
def toISOString (secs : ℤ) : String :=
  let days := secs.ediv 86400
  let sod := (secs.emod 86400).toNat
  let z := days + 719468
  let era := z.ediv 146097
  let doe := (z.emod 146097).toNat
  let yoe := (doe - doe / 1460 + doe / 36524 - doe / 146096) / 365
  let doy := doe - (365 * yoe + yoe / 4 - yoe / 100)
  let mp := (5 * doy + 2) / 153
  let dayOfMonth := doy - (153 * mp + 2) / 5 + 1
  let month := if mp < 10 then mp + 3 else mp - 9
  let year : ℤ := (yoe : ℤ) + era * 400 + (if month ≤ 2 then 1 else 0)
  pad4 year.toNat ++ "-" ++ pad2 month ++ "-" ++ pad2 dayOfMonth ++ "T" ++
    pad2 (sod / 3600) ++ ":" ++ pad2 (sod % 3600 / 60) ++ ":" ++ pad2 (sod % 60) ++ ".000Z"

/-- Indicator regime classification (spec §3): Bullish / Bearish / Neutral. -/
inductive Regime where
  | Bullish
  | Bearish
  | Neutral
deriving DecidableEq, Inhabited

/-- Modelled from the spec: `IndicatorResult` — the `IndicatorAgent` and
its output type live outside `src/`; fields per spec §3. -/
structure IndicatorOut where
  rsi : ℚ
  regime : Regime
  overbought : Bool
  oversold : Bool
  confidence : ℚ
deriving DecidableEq, Inhabited

/-- Trend direction (spec §3). -/
inductive TrendDir where
  | Up
  | Down
  | Sideways
deriving DecidableEq, Inhabited

/-- Modelled from the spec: `TrendResult` — the `TrendAgent` and its output
type live outside `src/`; fields per spec §3. -/
structure TrendOut where
  trend : TrendDir
  emaFast : ℚ
  emaSlow : ℚ
  strength : ℚ
deriving DecidableEq, Inhabited

/-- Modelled from the spec: `RiskResult` — the `RiskAgent` and its output
type live outside `src/`; fields per spec §3. -/
structure RiskOut where
  rho : ℚ
  rMultiplier : ℚ
  takeProfit : ℚ
  commentary : String
deriving DecidableEq, Inhabited

/-- `AgentContext`: the candles plus the four optional stage results. -/
structure AgentContext where
  candles : List Candle
  indicator : Option IndicatorOut := none
  pattern : Option PatternOut := none
  trend : Option TrendOut := none
  risk : Option RiskOut := none
deriving DecidableEq, Inhabited

/-- String form of a regime, as interpolated by the narrative. -/
def Regime.str : Regime → String
  | .Bullish => "Bullish"
  | .Bearish => "Bearish"
  | .Neutral => "Neutral"

/-- String form of a trend direction, as interpolated by the narrative. -/
def TrendDir.str : TrendDir → String
  | .Up => "Up"
  | .Down => "Down"
  | .Sideways => "Sideways"

/-- String form of a pattern, as interpolated by the narrative. -/
def Pattern.str : Pattern → String
  | .BullishEngulfing => "BullishEngulfing"
  | .BearishEngulfing => "BearishEngulfing"
  | .Doji => "Doji"
  | .None => "None"

/-- The `timestamp` line of the narrative. -/
def timestampLine (last : Candle) : String :=
  "Time: " ++ toISOString last.time

/-- The `indicatorLine` of the narrative, including the regime emoji. -/
def indicatorLine (ind : IndicatorOut) : String :=
  let dirEmoji := if ind.regime = .Bullish then "📈" else if ind.regime = .Bearish then "📉" else "➖"
  dirEmoji ++ " Indicator: RSI=" ++ toFixed ind.rsi 1 ++ " (" ++ ind.regime.str ++
    (if ind.overbought then ", Overbought" else "") ++
    (if ind.oversold then ", Oversold" else "") ++
    "); confidence=" ++ toFixed ind.confidence 2

/-- The `patternLine` of the narrative. -/
def patternLine (pat : PatternOut) : String :=
  "🕯️ Pattern: " ++ pat.pattern.str ++ " (strength=" ++ toFixed pat.strength 2 ++ ")"

/-- The `trendLine` of the narrative. -/
def trendLine (tr : TrendOut) : String :=
  "📊 Trend: " ++ tr.trend.str ++ " (EMA12=" ++ toFixed tr.emaFast 5 ++
    ", EMA26=" ++ toFixed tr.emaSlow 5 ++ ", strength=" ++ toFixed tr.strength 2 ++ ")"

/-- The `riskLine` of the narrative. -/
def riskLine (rk : RiskOut) : String :=
  "🛡️ Risk: ρ=" ++ toFixed rk.rho 5 ++ ", r=" ++ toFixed rk.rMultiplier 2 ++
    " ⇒ take-profit R=" ++ toFixed rk.takeProfit 5 ++ " (" ++ rk.commentary ++ ")"

/-- `generateNarrative`: the incomplete-analysis string when any stage
result is absent, the no-candle string when the candle list is empty, and
otherwise the five report lines joined by newlines in fixed order. -/
def generateNarrative (ctx : AgentContext) : String :=
  match ctx.indicator, ctx.pattern, ctx.trend, ctx.risk with
  | some ind, some pat, some tr, some rk =>
    match ctx.candles.getLast? with
    | none => "No candle data available"
    | some last =>
      String.intercalate "\n"
        [timestampLine last, indicatorLine ind, patternLine pat, trendLine tr, riskLine rk]
  | _, _, _, _ => "Incomplete analysis - missing agent outputs"

/-- Modelled from the spec: behaviour of the agents invoked by the graph
nodes. `IndicatorAgent`, `TrendAgent` and `RiskAgent` are not under `src/`;
per §7 any exception inside a stage is caught at the node boundary, so each
call is modelled as an `Except` outcome depending on the node's inputs.
`PatternAgent` IS under `src/` and is called directly (its pure embedding
cannot throw). `enrich` carries the pattern agent's optional-enrichment
configuration. -/
structure AgentEnv where
  enrich : EnrichEnv
  indicator : List Candle → Except String IndicatorOut
  trend : List Candle → Except String TrendOut
  risk : List Candle → IndicatorOut → PatternOut → TrendOut → Except String RiskOut

/-- `GraphState`: candles plus the optional per-stage fields; `errors` is
`string[] | undefined` as in the source. -/
structure GraphState where
  candles : List Candle
  indicator : Option IndicatorOut := none
  pattern : Option PatternOut := none
  trend : Option TrendOut := none
  risk : Option RiskOut := none
  visuals : Option Visuals := none
  signals : Option (List SignalEvent) := none
  narrative : Option String := none
  errors : Option (List String) := none
deriving DecidableEq, Inhabited

/-- `Partial<GraphState>` as returned by a node: every field absent unless
the node sets it (nodes never set `candles`). -/
structure NodeOut where
  indicator : Option IndicatorOut := none
  pattern : Option PatternOut := none
  trend : Option TrendOut := none
  risk : Option RiskOut := none
  visuals : Option Visuals := none
  signals : Option (List SignalEvent) := none
  narrative : Option String := none
  errors : Option (List String) := none
deriving DecidableEq, Inhabited

/-- `indicatorNode`: on success returns `{ indicator }`; a thrown error is
caught and appended to `state.errors || []` tagged `indicator:`. -/
def indicatorNode (env : AgentEnv) (state : GraphState) : NodeOut :=
  match env.indicator state.candles with
  | .ok indicator => { indicator := some indicator }
  | .error e => { errors := some (state.errors.getD [] ++ ["indicator:" ++ e]) }

/-- `patternNode`: calls `PatternAgent` on the state's candles; the
embedded agent is total, so the catch branch is never taken. -/
def patternNode (env : AgentEnv) (state : GraphState) : NodeOut :=
  { pattern := some (PatternAgent env.enrich state.candles) }

/-- `trendNode`: on success returns `{ trend }`; a thrown error is caught
and appended to `state.errors || []` tagged `trend:`. -/
def trendNode (env : AgentEnv) (state : GraphState) : NodeOut :=
  match env.trend state.candles with
  | .ok trend => { trend := some trend }
  | .error e => { errors := some (state.errors.getD [] ++ ["trend:" ++ e]) }

/-- `riskNode`: returns `{}` when any of indicator/pattern/trend is absent,
otherwise calls `RiskAgent`; a thrown error is caught and appended to
`state.errors || []` tagged `risk:`. -/
def riskNode (env : AgentEnv) (state : GraphState) : NodeOut :=
  match state.indicator, state.pattern, state.trend with
  | some i, some p, some t =>
    match env.risk state.candles i p t with
    | .ok risk => { risk := some risk }
    | .error e => { errors := some (state.errors.getD [] ++ ["risk:" ++ e]) }
  | _, _, _ => {}

/-- `visualsAndSignalsNode`: computes visuals and signals from the candles;
the embedded computation is total, so the catch branch is never taken. -/
def visualsAndSignalsNode (state : GraphState) : NodeOut :=
  let vs := computeVisualsAndSignals state.candles
  { visuals := some vs.1, signals := some vs.2 }

/-- `narrativeNode`: renders the narrative from the current state. -/
def narrativeNode (state : GraphState) : NodeOut :=
  { narrative := some (generateNarrative
      { candles := state.candles, indicator := state.indicator,
        pattern := state.pattern, trend := state.trend, risk := state.risk }) }

/-- The `finalState` built by `runGraphPipeline`: fan-out over
indicator/pattern/trend, merge with error accumulation, risk gate, visuals
and signals, then narrative. -/
def runGraphState (env : AgentEnv) (candles : List Candle) : GraphState :=
  let base : GraphState := { candles := candles, errors := some [] }
  let indRes := indicatorNode env base
  let patRes := patternNode env base
  let trRes := trendNode env base
  let merged1 : GraphState := { base with
    indicator := indRes.indicator, pattern := patRes.pattern, trend := trRes.trend,
    errors := some (base.errors.getD [] ++ indRes.errors.getD [] ++
      patRes.errors.getD [] ++ trRes.errors.getD []) }
  let riskRes := riskNode env merged1
  let merged2 : GraphState := { merged1 with
    risk := riskRes.risk,
    errors := some (merged1.errors.getD [] ++ riskRes.errors.getD []) }
  let vizRes := visualsAndSignalsNode merged2
  let merged3 : GraphState := { merged2 with
    visuals := vizRes.visuals, signals := vizRes.signals,
    errors := some (merged2.errors.getD [] ++ vizRes.errors.getD []) }
  let narRes := narrativeNode merged3
  { merged3 with narrative := narRes.narrative }

/-- The value `runGraphPipeline` returns to its caller:
`{ ctx, narrative, visuals?, signals? }`. -/
structure PipelineReturn where
  ctx : AgentContext
  narrative : String
  visuals : Option Visuals := none
  signals : Option (List SignalEvent) := none
deriving DecidableEq, Inhabited

/-- `runGraphPipeline`: builds the final graph state, projects the context,
and returns `{ ctx, narrative: finalState.narrative || generateNarrative(ctx),
visuals, signals }` (the JavaScript `||` also replaces an empty string). -/
def runGraphPipeline (env : AgentEnv) (candles : List Candle) : PipelineReturn :=
  let finalState := runGraphState env candles
  let ctx : AgentContext :=
    { candles := candles,
      indicator := finalState.indicator, pattern := finalState.pattern,
      trend := finalState.trend, risk := finalState.risk }
  { ctx := ctx,
    narrative := match finalState.narrative with
      | some s => if s = "" then generateNarrative ctx else s
      | none => generateNarrative ctx,
    visuals := finalState.visuals,
    signals := finalState.signals }

-- ---------------------------------------------------------------------------
-- Concrete fixtures for witnesses and counterexamples
-- ---------------------------------------------------------------------------

/-- A flat candle with the given open and close. -/
def mkC (o c : ℚ) : Candle := ⟨0, o, 0, 0, c, 0⟩

/-- 28 candles: 25 flat ones, a bearish candle, a bullish candle engulfing
it (a BullishEngulfing event at index 26), and a Doji at index 27. -/
def cexCandles : List Candle :=
  List.replicate 25 (mkC 1 1) ++ [mkC 2 1, mkC 1 3, mkC 3 3]

/-- RSI series inside the (55, 70) BUY band at every index. -/
def cexRsi : List ℚ := List.replicate 28 60

/-- Fast EMA series: above the deadband only at index 27. -/
def cexE12 : List ℚ := List.replicate 27 1 ++ [2]

/-- Slow EMA series: constant 1. -/
def cexE26 : List ℚ := List.replicate 28 1

/-- 27 candles whose last pair forms a BullishEngulfing at index 26. -/
def witCandles : List Candle :=
  List.replicate 25 (mkC 1 1) ++ [mkC 2 1, mkC 1 3]

/-- RSI series inside the BUY band. -/
def witRsi : List ℚ := List.replicate 27 60

/-- Fast EMA series above the deadband everywhere. -/
def witE12 : List ℚ := List.replicate 27 2

/-- Slow EMA series: constant 1. -/
def witE26 : List ℚ := List.replicate 27 1

/-- The BUY signal emitted at index 26 on the `wit*` fixtures. -/
def witSignal : SignalEvent :=
  ⟨26, 0, .BUY, 1, "Uptrend + RSI>55 + Bullish Engulfing"⟩

/-- Enrichment disabled (no `PATTERN_AI`, no key, failing service). -/
def envOff : EnrichEnv := ⟨false, false, fun _ => .error "disabled"⟩

/-- Enrichment enabled with a service answering every prompt. -/
def envOn : EnrichEnv := ⟨true, true, fun _ => .ok "summary"⟩

/-- A neutral indicator result. -/
def okIndicator : IndicatorOut := ⟨50, .Neutral, false, false, 1 / 2⟩

/-- A sideways trend result. -/
def okTrendOut : TrendOut := ⟨.Sideways, 1, 1, 0⟩

/-- A fixed risk result. -/
def okRiskOut : RiskOut := ⟨1, 1, 1, "ok"⟩

/-- All agents succeed. -/
def envAllOk : AgentEnv :=
  { enrich := envOff, indicator := fun _ => .ok okIndicator,
    trend := fun _ => .ok okTrendOut, risk := fun _ _ _ _ => .ok okRiskOut }

/-- The indicator agent throws with message `a`; the rest succeed. -/
def envIndFailA : AgentEnv :=
  { enrich := envOff, indicator := fun _ => .error "a",
    trend := fun _ => .ok okTrendOut, risk := fun _ _ _ _ => .ok okRiskOut }

/-- The indicator agent throws with message `b`; the rest succeed. -/
def envIndFailB : AgentEnv :=
  { enrich := envOff, indicator := fun _ => .error "b",
    trend := fun _ => .ok okTrendOut, risk := fun _ _ _ _ => .ok okRiskOut }

/-- The risk agent throws; indicator and trend succeed. -/
def envRiskFail : AgentEnv :=
  { enrich := envOff, indicator := fun _ => .ok okIndicator,
    trend := fun _ => .ok okTrendOut, risk := fun _ _ _ _ => .error "boom" }

/-- A fixed pattern result. -/
def witPattern : PatternOut := ⟨.Doji, 2 / 5, none⟩

/-- A context with every stage result present and one candle. -/
def witCtx : AgentContext :=
  ⟨[mkC 1 2], some okIndicator, some witPattern, some okTrendOut, some okRiskOut⟩

/-- A context with every stage result present but no candles. -/
def cexCtx : AgentContext :=
  ⟨[], some okIndicator, some witPattern, some okTrendOut, some okRiskOut⟩

-- ---------------------------------------------------------------------------
-- Helper lemmas
-- ---------------------------------------------------------------------------

/-- Enrichment only touches the `aiSummary` field: the pattern is kept. -/
theorem enrich_pattern (env : EnrichEnv) (prompt : String) (out : PatternOut) :
    (enrich env prompt out).pattern = out.pattern := by
  unfold enrich
  split
  · cases env.response prompt <;> rfl
  · rfl

/-- Enrichment only touches the `aiSummary` field: the strength is kept. -/
theorem enrich_strength (env : EnrichEnv) (prompt : String) (out : PatternOut) :
    (enrich env prompt out).strength = out.strength := by
  unfold enrich
  split
  · cases env.response prompt <;> rfl
  · rfl

/-- The epsilon-guarded denominator of the engulfing strength is positive. -/
theorem denom_pos (b : ℚ) (hb : 0 ≤ b) : 0 < b + eps := by
  have : (0 : ℚ) < eps := by norm_num [eps]
  linarith

/-- The engulfing strength `min 1 (a / (b + eps))` is within `[0, 1]` for
nonnegative body sizes. -/
theorem strength_bounds (a b : ℚ) (ha : 0 ≤ a) (hb : 0 ≤ b) :
    0 ≤ min 1 (a / (b + eps)) ∧ min 1 (a / (b + eps)) ≤ 1 := by
  constructor
  · exact le_min (by norm_num) (div_nonneg ha (le_of_lt (denom_pos b hb)))
  · exact min_le_left _ _

/-- Any signal produced by the loop body at `i` carries index `i`. -/
theorem signalAt_index {candles : List Candle} {rsi e12 e26 : List ℚ}
    {events : List PatternEvent} {i : ℕ} {s : SignalEvent}
    (h : signalAt candles rsi e12 e26 events i = some s) : s.index = i := by
  rcases hm : matchedPattern events i with _ | p
  · simp [signalAt, hm] at h
  · simp only [signalAt, hm] at h
    split_ifs at h <;> (simp only [Option.some.injEq] at h; subst h; rfl)

/-- Membership in `computeSignals` is membership in the loop image. -/
theorem mem_computeSignals {candles : List Candle} {rsi e12 e26 : List ℚ}
    {events : List PatternEvent} {s : SignalEvent} :
    s ∈ computeSignals candles rsi e12 e26 events ↔
      ∃ i, i ∈ List.range' 26 (candles.length - 26) ∧
        signalAt candles rsi e12 e26 events i = some s := by
  simp [computeSignals, List.mem_filterMap]

/-- Generalized fold lemma for the `patternByIndex` lookup: a hit is either
a list element or the initial accumulator. -/
theorem patternByIndex_foldl_aux (evs : List PatternEvent) (i : ℕ) (p : PatternEvent) :
    ∀ acc : Option PatternEvent,
      evs.foldl (fun acc ev => if ev.index = i then some ev else acc) acc = some p →
      p ∈ evs ∨ acc = some p := by
  induction evs with
  | nil => intro acc h; right; exact h
  | cons e t ih =>
    intro acc h
    rcases ih _ h with h' | h'
    · exact Or.inl (List.mem_cons_of_mem _ h')
    · by_cases he : e.index = i
      · simp only [he, if_true] at h'
        left
        simp only [Option.some.injEq] at h'
        exact h' ▸ List.mem_cons_self _ _
      · simp only [he, if_false] at h'
        exact Or.inr h'

/-- A `patternByIndex` hit is an element of the event list. -/
theorem patternByIndex_mem {evs : List PatternEvent} {i : ℕ} {p : PatternEvent}
    (h : patternByIndex evs i = some p) : p ∈ evs := by
  rcases patternByIndex_foldl_aux evs i p none h with h' | h'
  · exact h'
  · exact absurd h' (by simp)

/-- A `patternByIndex` hit carries the looked-up index. -/
theorem patternByIndex_index {evs : List PatternEvent} {i : ℕ} {p : PatternEvent}
    (h : patternByIndex evs i = some p) : p.index = i := by
  have aux : ∀ (l : List PatternEvent) (acc : Option PatternEvent),
      (∀ q, acc = some q → q.index = i) →
      l.foldl (fun acc ev => if ev.index = i then some ev else acc) acc = some p →
      p.index = i := by
    intro l
    induction l with
    | nil => intro acc hacc h; exact hacc _ h
    | cons e t ih =>
      intro acc hacc h
      refine ih _ ?_ h
      intro q hq
      by_cases he : e.index = i
      · simp only [he, if_true] at hq
        simp only [Option.some.injEq] at hq
        exact hq ▸ he
      · simp only [he, if_false] at hq
        exact hacc _ hq
  exact aux evs none (by simp) h

/-- A matched pattern is an element of the event list. -/
theorem matchedPattern_mem {evs : List PatternEvent} {i : ℕ} {p : PatternEvent}
    (h : matchedPattern evs i = some p) : p ∈ evs := by
  unfold matchedPattern at h
  rcases h1 : patternByIndex evs i with _ | q
  · rw [h1] at h
    simp only [Option.orElse, Option.none_orElse] at h
    exact patternByIndex_mem h
  · rw [h1] at h
    simp only [Option.orElse, Option.some_orElse] at h
    cases h
    exact patternByIndex_mem h1

/-- An event produced by the `computePatternEvents` loop body carries the
loop index. -/
theorem eventAt_index {candles : List Candle} {i : ℕ} {ev : PatternEvent}
    (h : eventAt candles i = some ev) : ev.index = i := by
  simp only [eventAt] at h
  split_ifs at h <;> (simp only [Option.some.injEq] at h; subst h; rfl)

/-- Every event produced by the `computePatternEvents` loop body has a
nonnegative strength. -/
theorem eventAt_strength_nonneg {candles : List Candle} {i : ℕ} {ev : PatternEvent}
    (h : eventAt candles i = some ev) : 0 ≤ ev.strength := by
  simp only [eventAt] at h
  split_ifs at h <;> (simp only [Option.some.injEq] at h; subst h)
  · norm_num
  · exact (strength_bounds _ _ (abs_nonneg _) (abs_nonneg _)).1
  · exact (strength_bounds _ _ (abs_nonneg _) (abs_nonneg _)).1

/-- Every event in `computePatternEvents` has a nonnegative strength. -/
theorem computePatternEvents_strength_nonneg {candles : List Candle} {ev : PatternEvent}
    (h : ev ∈ computePatternEvents candles) : 0 ≤ ev.strength := by
  simp only [computePatternEvents, List.mem_filterMap] at h
  obtain ⟨i, _, hi⟩ := h
  exact eventAt_strength_nonneg hi

/-- A signal with index `i` is in the output exactly when the loop body
emits it at `i`, provided `26 ≤ i < candles.length`. -/
theorem exists_signal_at_iff {candles : List Candle} {rsi e12 e26 : List ℚ}
    {events : List PatternEvent} {i : ℕ} (h1 : 26 ≤ i) (h2 : i < candles.length)
    (P : SignalEvent → Prop) :
    (∃ s ∈ computeSignals candles rsi e12 e26 events, s.index = i ∧ P s) ↔
      (∃ s, signalAt candles rsi e12 e26 events i = some s ∧ P s) := by
  constructor
  · rintro ⟨s, hs, hidx, hP⟩
    rcases mem_computeSignals.mp hs with ⟨j, _, hj⟩
    have hji : j = i := by rw [← signalAt_index hj, hidx]
    exact ⟨s, hji ▸ hj, hP⟩
  · rintro ⟨s, hs, hP⟩
    refine ⟨s, mem_computeSignals.mpr ⟨i, ?_, hs⟩, signalAt_index hs, hP⟩
    have : i < 26 + (candles.length - 26) := by omega
    exact List.mem_range'_1.mpr ⟨h1, this⟩

/-- The loop body emits a BUY at `i` exactly when the uptrend deadband, the
RSI band, and a Bullish-Engulfing matched pattern all hold. -/
theorem signalAt_buy_iff {candles : List Candle} {rsi e12 e26 : List ℚ}
    {events : List PatternEvent} {i : ℕ} :
    (∃ s, signalAt candles rsi e12 e26 events i = some s ∧ s.type = .BUY) ↔
      (e12.getD i 0 > e26.getD i 0 * (1001 / 1000) ∧
        rsi.getD i 0 > 55 ∧ rsi.getD i 0 < 70 ∧
        ∃ p, matchedPattern events i = some p ∧ p.pattern = .BullishEngulfing) := by
  rcases hm : matchedPattern events i with _ | p
  · simp [signalAt, hm]
  · simp only [signalAt, hm]
    split_ifs with hbuy hsell
    · simp only [Option.some.injEq]
      constructor
      · rintro -
        exact ⟨hbuy.1, hbuy.2.1, hbuy.2.2.1, p, rfl, hbuy.2.2.2⟩
      · rintro -
        exact ⟨_, rfl, rfl⟩
    · constructor
      · rintro ⟨s, hs, hty⟩
        simp only [Option.some.injEq] at hs
        rw [← hs] at hty
        simp at hty
      · rintro ⟨hup, h55, h70, q, hq, hpat⟩
        simp only [Option.some.injEq] at hq
        exact absurd ⟨hup, h55, h70, hq ▸ hpat⟩ hbuy
    · constructor
      · rintro ⟨s, hs, _⟩
        simp at hs
      · rintro ⟨hup, h55, h70, q, hq, hpat⟩
        simp only [Option.some.injEq] at hq
        exact absurd ⟨hup, h55, h70, hq ▸ hpat⟩ hbuy

/-- The loop body emits a SELL at `i` exactly when the downtrend deadband,
the RSI band, and a Bearish-Engulfing matched pattern all hold. -/
theorem signalAt_sell_iff {candles : List Candle} {rsi e12 e26 : List ℚ}
    {events : List PatternEvent} {i : ℕ} :
    (∃ s, signalAt candles rsi e12 e26 events i = some s ∧ s.type = .SELL) ↔
      (e12.getD i 0 < e26.getD i 0 * (999 / 1000) ∧
        rsi.getD i 0 < 45 ∧ rsi.getD i 0 > 30 ∧
        ∃ p, matchedPattern events i = some p ∧ p.pattern = .BearishEngulfing) := by
  rcases hm : matchedPattern events i with _ | p
  · simp [signalAt, hm]
  · simp only [signalAt, hm]
    split_ifs with hbuy hsell
    · constructor
      · rintro ⟨s, hs, hty⟩
        simp only [Option.some.injEq] at hs
        rw [← hs] at hty
        simp at hty
      · rintro ⟨hdown, h45, h30, q, hq, hpat⟩
        simp only [Option.some.injEq] at hq
        subst hq
        rw [hbuy.2.2.2] at hpat
        simp at hpat
    · simp only [Option.some.injEq]
      constructor
      · rintro -
        exact ⟨hsell.1, hsell.2.1, hsell.2.2.1, p, rfl, hsell.2.2.2⟩
      · rintro -
        exact ⟨_, rfl, rfl⟩
    · constructor
      · rintro ⟨s, hs, _⟩
        simp at hs
      · rintro ⟨hdown, h45, h30, q, hq, hpat⟩
        simp only [Option.some.injEq] at hq
        exact absurd ⟨hdown, h45, h30, hq ▸ hpat⟩ hsell

/-- Every signal the loop body emits scores
`0.5 + min(0.5, strength * 0.5)` with the matched pattern's strength. -/
theorem signalAt_score {candles : List Candle} {rsi e12 e26 : List ℚ}
    {events : List PatternEvent} {i : ℕ} {s : SignalEvent}
    (h : signalAt candles rsi e12 e26 events i = some s) :
    ∃ p, matchedPattern events i = some p ∧
      s.score = 1 / 2 + min (1 / 2) (p.strength * (1 / 2)) := by
  rcases hm : matchedPattern events i with _ | p
  · simp [signalAt, hm] at h
  · simp only [signalAt, hm] at h
    refine ⟨p, rfl, ?_⟩
    split_ifs at h <;> (simp only [Option.some.injEq] at h; subst h; rfl)

/-- Every event produced by the `computePatternEvents` loop body has
strength at most 1. -/
theorem eventAt_strength_le_one {candles : List Candle} {i : ℕ} {ev : PatternEvent}
    (h : eventAt candles i = some ev) : ev.strength ≤ 1 := by
  simp only [eventAt] at h
  split_ifs at h <;> (simp only [Option.some.injEq] at h; subst h)
  · norm_num
  · exact (strength_bounds _ _ (abs_nonneg _) (abs_nonneg _)).2
  · exact (strength_bounds _ _ (abs_nonneg _) (abs_nonneg _)).2

/-- The final state's indicator field is the indicator agent's outcome. -/
theorem runGraphState_indicator (env : AgentEnv) (c : List Candle) :
    (runGraphState env c).indicator = (env.indicator c).toOption := by
  rcases hi : env.indicator c with e | v <;>
    simp [runGraphState, indicatorNode, patternNode, trendNode, riskNode,
      visualsAndSignalsNode, narrativeNode, hi, Except.toOption]

/-- The final state's pattern field is always the pattern agent's result. -/
theorem runGraphState_pattern (env : AgentEnv) (c : List Candle) :
    (runGraphState env c).pattern = some (PatternAgent env.enrich c) := by
  simp [runGraphState, indicatorNode, patternNode, trendNode, riskNode,
    visualsAndSignalsNode, narrativeNode]

/-- The final state's trend field is the trend agent's outcome. -/
theorem runGraphState_trend (env : AgentEnv) (c : List Candle) :
    (runGraphState env c).trend = (env.trend c).toOption := by
  rcases ht : env.trend c with e | v <;>
    simp [runGraphState, indicatorNode, patternNode, trendNode, riskNode,
      visualsAndSignalsNode, narrativeNode, ht, Except.toOption]

/-- The final state's risk field: present exactly when indicator and trend
succeeded and the risk agent call on their results succeeded. -/
theorem runGraphState_risk (env : AgentEnv) (c : List Candle) :
    (runGraphState env c).risk =
      match env.indicator c, env.trend c with
      | .ok i, .ok t => (env.risk c i (PatternAgent env.enrich c) t).toOption
      | _, _ => none := by
  rcases hi : env.indicator c with e | vi <;> rcases ht : env.trend c with e' | vt <;>
    simp [runGraphState, indicatorNode, patternNode, trendNode, riskNode,
      visualsAndSignalsNode, narrativeNode, hi, ht, Except.toOption]
  rcases hr : env.risk c vi (PatternAgent env.enrich c) vt with e'' | vr <;>
    simp [hr, Except.toOption]

-- ---------------------------------------------------------------------------
-- Claim theorems
-- ---------------------------------------------------------------------------

/-- C5: for every candle sequence of length less than 2 (empty or a single
candle), `PatternAgent` returns `{pattern: None, strength: 0}` (and no AI
summary), for any enrichment environment. -/
theorem patternAgent_short_input (env : EnrichEnv) (cs : List Candle)
    (h : cs.length < 2) :
    PatternAgent env cs = { pattern := .None, strength := 0, aiSummary := none } := by
  simp [PatternAgent, h]

/-- Witness for C5: the empty candle list, with enrichment enabled. -/
theorem patternAgent_short_input_witness :
    ([] : List Candle).length < 2 ∧
      PatternAgent envOn [] = { pattern := .None, strength := 0, aiSummary := none } :=
  ⟨by decide, patternAgent_short_input envOn [] (by decide)⟩

/-- C6: the Doji test is decided before any engulfing test: whenever the
last candle's body is at most `0.001` of its close, `PatternAgent`
classifies Doji with strength `0.4` (whatever else holds of the pair), and
the full-series scan emits the Doji event at that index. -/
theorem doji_checked_first :
    (∀ (env : EnrichEnv) (cs : List Candle), 2 ≤ cs.length →
      |(cs.getD (cs.length - 1) default).close - (cs.getD (cs.length - 1) default).open_| ≤
        1 / 1000 * (cs.getD (cs.length - 1) default).close →
      (PatternAgent env cs).pattern = .Doji ∧ (PatternAgent env cs).strength = 2 / 5) ∧
    (∀ (candles : List Candle) (i : ℕ), 1 ≤ i → i < candles.length →
      |(candles.getD i default).close - (candles.getD i default).open_| ≤
        1 / 1000 * (candles.getD i default).close →
      eventAt candles i = some ⟨i, .Doji, 2 / 5⟩ ∧
        (⟨i, .Doji, 2 / 5⟩ : PatternEvent) ∈ computePatternEvents candles) := by
  constructor
  · intro env cs hlen hdoji
    have h2 : ¬ cs.length < 2 := by omega
    simp only [PatternAgent, if_neg h2, if_pos hdoji]
    rw [enrich_pattern, enrich_strength]
    exact ⟨rfl, rfl⟩
  · intro candles i h1 h2 hdoji
    have hev : eventAt candles i = some ⟨i, .Doji, 2 / 5⟩ := by
      simp only [eventAt, if_pos hdoji]
    refine ⟨hev, ?_⟩
    simp only [computePatternEvents, List.mem_filterMap]
    refine ⟨i, List.mem_range'_1.mpr ⟨h1, by omega⟩, hev⟩

/-- Witness for C6: a pair that satisfies both the Doji condition and all
bullish-engulfing conditions classifies as Doji, in the agent and in the
series scan. -/
theorem doji_checked_first_witness :
    ((PatternAgent envOn [mkC 3 (2999 / 1000), mkC (2999 / 1000) (3001 / 1000)]).pattern = .Doji ∧
      (PatternAgent envOn [mkC 3 (2999 / 1000), mkC (2999 / 1000) (3001 / 1000)]).strength = 2 / 5) ∧
    eventAt [mkC 3 (2999 / 1000), mkC (2999 / 1000) (3001 / 1000)] 1 = some ⟨1, .Doji, 2 / 5⟩ ∧
      (⟨1, .Doji, 2 / 5⟩ : PatternEvent) ∈
        computePatternEvents [mkC 3 (2999 / 1000), mkC (2999 / 1000) (3001 / 1000)] :=
  ⟨doji_checked_first.1 envOn [mkC 3 (2999 / 1000), mkC (2999 / 1000) (3001 / 1000)]
      (by decide) (by with_unfolding_all decide),
    doji_checked_first.2 [mkC 3 (2999 / 1000), mkC (2999 / 1000) (3001 / 1000)] 1
      (by decide) (by decide) (by with_unfolding_all decide)⟩

/-- C7: the epsilon guard keeps the engulfing-strength denominator
positive (the division is well-defined), and every engulfing strength —
`min(1, lastBody/(prevBody + 1e-9))` — lies in `[0, 1]`, both for
`PatternAgent`'s classification and for every scanned pattern event. -/
theorem engulf_strength_in_unit_interval :
    (∀ prev last : Candle,
      0 < |prev.close - prev.open_| + eps ∧
      0 ≤ min 1 (|last.close - last.open_| / (|prev.close - prev.open_| + eps)) ∧
      min 1 (|last.close - last.open_| / (|prev.close - prev.open_| + eps)) ≤ 1) ∧
    (∀ (env : EnrichEnv) (cs : List Candle),
      (PatternAgent env cs).pattern = .BullishEngulfing ∨
        (PatternAgent env cs).pattern = .BearishEngulfing →
      0 ≤ (PatternAgent env cs).strength ∧ (PatternAgent env cs).strength ≤ 1) ∧
    (∀ (candles : List Candle) (ev : PatternEvent), ev ∈ computePatternEvents candles →
      ev.pattern = .BullishEngulfing ∨ ev.pattern = .BearishEngulfing →
      0 ≤ ev.strength ∧ ev.strength ≤ 1) := by
  refine ⟨?_, ?_, ?_⟩
  · intro prev last
    exact ⟨denom_pos _ (abs_nonneg _),
      strength_bounds _ _ (abs_nonneg _) (abs_nonneg _)⟩
  · intro env cs h
    simp only [PatternAgent] at h ⊢
    split_ifs at h ⊢
    · simp at h
    · rw [enrich_pattern] at h
      simp at h
    · rw [enrich_strength]
      exact strength_bounds _ _ (abs_nonneg _) (abs_nonneg _)
    · rw [enrich_strength]
      exact strength_bounds _ _ (abs_nonneg _) (abs_nonneg _)
    · simp at h
  · intro candles ev hmem _
    simp only [computePatternEvents, List.mem_filterMap] at hmem
    obtain ⟨i, _, hi⟩ := hmem
    exact ⟨eventAt_strength_nonneg hi, eventAt_strength_le_one hi⟩

/-- Witness for C7: the degenerate `prevBody = 0` engulfing pair — the
guarded division still yields a strength in `[0, 1]`. -/
theorem engulf_strength_in_unit_interval_witness :
    (0 : ℚ) < |(mkC 2 2).close - (mkC 2 2).open_| + eps ∧
      ((PatternAgent envOff [mkC 2 1, mkC 1 3]).pattern = .BullishEngulfing ∨
        (PatternAgent envOff [mkC 2 1, mkC 1 3]).pattern = .BearishEngulfing) ∧
      0 ≤ (PatternAgent envOff [mkC 2 1, mkC 1 3]).strength ∧
      (PatternAgent envOff [mkC 2 1, mkC 1 3]).strength ≤ 1 := by
  refine ⟨(engulf_strength_in_unit_interval.1 (mkC 2 2) (mkC 1 3)).1, ?_, ?_⟩
  · with_unfolding_all decide
  · exact engulf_strength_in_unit_interval.2.1 envOff [mkC 2 1, mkC 1 3]
      (by with_unfolding_all decide)

/-- C9: the `pattern` and `strength` fields of `PatternAgent`'s result do
not depend on the enrichment environment (flags or service behaviour); two
runs on the same candles can differ at most in `aiSummary`. -/
theorem enrichment_noninterference (cs : List Candle) (env1 env2 : EnrichEnv) :
    (PatternAgent env1 cs).pattern = (PatternAgent env2 cs).pattern ∧
    (PatternAgent env1 cs).strength = (PatternAgent env2 cs).strength := by
  simp only [PatternAgent]
  split_ifs <;>
    simp [enrich_pattern, enrich_strength]

/-- C8: every emitted signal has index `i` with
`26 ≤ i < candles.length` — the scan never emits below the slow-EMA
warm-up, whatever series and events it is fed. -/
theorem signal_index_in_range (candles : List Candle) (rsi e12 e26 : List ℚ)
    (events : List PatternEvent) (s : SignalEvent)
    (h : s ∈ computeSignals candles rsi e12 e26 events) :
    26 ≤ s.index ∧ s.index < candles.length := by
  rcases mem_computeSignals.mp h with ⟨i, hi, hs⟩
  rcases List.mem_range'_1.mp hi with ⟨hl, hu⟩
  rw [signalAt_index hs]
  omega

/-- Witness for C8: a concrete emitted BUY signal, at index 26 of a
27-candle input. -/
theorem signal_index_in_range_witness :
    26 ≤ witSignal.index ∧ witSignal.index < witCandles.length :=
  have hmem : witSignal ∈
      computeSignals witCandles witRsi witE12 witE26 (computePatternEvents witCandles) := by
    with_unfolding_all decide
  signal_index_in_range witCandles witRsi witE12 witE26
    (computePatternEvents witCandles) witSignal hmem

/-- C10: every signal emitted by the scan over the computed pattern events
has a score in `[0.5, 1]`: the score is `0.5 + min(0.5, strength * 0.5)`
and every scanned event's strength is nonnegative. -/
theorem signal_score_in_range (candles : List Candle) (rsi e12 e26 : List ℚ)
    (s : SignalEvent)
    (h : s ∈ computeSignals candles rsi e12 e26 (computePatternEvents candles)) :
    1 / 2 ≤ s.score ∧ s.score ≤ 1 := by
  rcases mem_computeSignals.mp h with ⟨i, _, hs⟩
  rcases signalAt_score hs with ⟨p, hp, hscore⟩
  have hnn : 0 ≤ p.strength :=
    computePatternEvents_strength_nonneg (matchedPattern_mem hp)
  rw [hscore]
  constructor
  · have : (0 : ℚ) ≤ min (1 / 2) (p.strength * (1 / 2)) :=
      le_min (by norm_num) (mul_nonneg hnn (by norm_num))
    linarith
  · have : min (1 / 2) (p.strength * (1 / 2)) ≤ (1 / 2 : ℚ) := min_le_left _ _
    linarith

/-- Witness for C10: the same concrete emitted BUY signal scores within
`[0.5, 1]` (here exactly 1). -/
theorem signal_score_in_range_witness :
    1 / 2 ≤ witSignal.score ∧ witSignal.score ≤ 1 :=
  have hmem : witSignal ∈
      computeSignals witCandles witRsi witE12 witE26 (computePatternEvents witCandles) := by
    with_unfolding_all decide
  signal_score_in_range witCandles witRsi witE12 witE26 witSignal hmem

/-- C1 (amended): at every index `26 ≤ i < length`, a BUY is emitted iff
the uptrend deadband and the RSI band hold and the MATCHED pattern event —
the event at `i` if one exists, otherwise the event at `i-1` — is a
BullishEngulfing (symmetrically for SELL with its bands and
BearishEngulfing); every signal at `i` scores
`0.5 + min(0.5, strength * 0.5)` with the matched event's strength. -/
theorem signal_scan_characterization (candles : List Candle)
    (rsi e12 e26 : List ℚ) (i : ℕ) (h1 : 26 ≤ i) (h2 : i < candles.length) :
    ((∃ s ∈ computeSignals candles rsi e12 e26 (computePatternEvents candles),
        s.index = i ∧ s.type = .BUY) ↔
      (e12.getD i 0 > e26.getD i 0 * (1001 / 1000) ∧
        rsi.getD i 0 > 55 ∧ rsi.getD i 0 < 70 ∧
        ∃ p, matchedPattern (computePatternEvents candles) i = some p ∧
          p.pattern = .BullishEngulfing)) ∧
    ((∃ s ∈ computeSignals candles rsi e12 e26 (computePatternEvents candles),
        s.index = i ∧ s.type = .SELL) ↔
      (e12.getD i 0 < e26.getD i 0 * (999 / 1000) ∧
        rsi.getD i 0 < 45 ∧ rsi.getD i 0 > 30 ∧
        ∃ p, matchedPattern (computePatternEvents candles) i = some p ∧
          p.pattern = .BearishEngulfing)) ∧
    (∀ s ∈ computeSignals candles rsi e12 e26 (computePatternEvents candles),
      s.index = i →
      ∃ p, matchedPattern (computePatternEvents candles) i = some p ∧
        s.score = 1 / 2 + min (1 / 2) (p.strength * (1 / 2))) := by
  refine ⟨?_, ?_, ?_⟩
  · exact (exists_signal_at_iff h1 h2 _).trans signalAt_buy_iff
  · exact (exists_signal_at_iff h1 h2 _).trans signalAt_sell_iff
  · intro s hs hidx
    rcases mem_computeSignals.mp hs with ⟨j, _, hj⟩
    have hji : j = i := by rw [← signalAt_index hj, hidx]
    subst hji
    exact signalAt_score hj

/-- Witness for C1: on the concrete 27-candle input, the characterization
yields the emitted BUY at index 26. -/
theorem signal_scan_characterization_witness :
    ∃ s ∈ computeSignals witCandles witRsi witE12 witE26
        (computePatternEvents witCandles), s.index = 26 ∧ s.type = .BUY :=
  (signal_scan_characterization witCandles witRsi witE12 witE26 26
      (by norm_num) (by with_unfolding_all decide)).1.mpr
    (by with_unfolding_all decide)

/-- Counterexample to C1 as stated: at index 27 the uptrend deadband and
the RSI band hold and a BullishEngulfing event exists at index 26 (= i-1),
yet no signal at all is emitted, because the Doji event at index 27
shadows it in the `get(i) || get(i-1)` lookup. -/
theorem signal_scan_exists_clause_cex :
    cexE12.getD 27 0 > cexE26.getD 27 0 * (1001 / 1000) ∧
    cexRsi.getD 27 0 > 55 ∧ cexRsi.getD 27 0 < 70 ∧
    (∃ ev ∈ computePatternEvents cexCandles,
      (ev.index = 27 ∨ ev.index = 27 - 1) ∧ ev.pattern = .BullishEngulfing) ∧
    27 < cexCandles.length ∧
    computeSignals cexCandles cexRsi cexE12 cexE26
      (computePatternEvents cexCandles) = [] := by
  with_unfolding_all decide

/-- C4 (amended): the narrative is the fixed incomplete-analysis string
whenever any stage result is absent; with all four present and a nonempty
candle list it is the five report lines (time, indicator, pattern, trend,
risk) joined by newlines in that fixed order; with all four present but no
candles it is the fixed no-candle string. -/
theorem narrative_rendering (ctx : AgentContext) :
    ((ctx.indicator = none ∨ ctx.pattern = none ∨ ctx.trend = none ∨ ctx.risk = none) →
      generateNarrative ctx = "Incomplete analysis - missing agent outputs") ∧
    (∀ ind pat tr rk last, ctx.indicator = some ind → ctx.pattern = some pat →
      ctx.trend = some tr → ctx.risk = some rk → ctx.candles.getLast? = some last →
      generateNarrative ctx = String.intercalate "\n"
        [timestampLine last, indicatorLine ind, patternLine pat, trendLine tr, riskLine rk]) ∧
    (ctx.indicator.isSome → ctx.pattern.isSome → ctx.trend.isSome → ctx.risk.isSome →
      ctx.candles = [] → generateNarrative ctx = "No candle data available") := by
  refine ⟨?_, ?_, ?_⟩
  · intro h
    rcases hI : ctx.indicator with _ | i
    · simp [generateNarrative, hI]
    · rcases hP : ctx.pattern with _ | p
      · simp [generateNarrative, hI, hP]
      · rcases hT : ctx.trend with _ | t
        · simp [generateNarrative, hI, hP, hT]
        · rcases hR : ctx.risk with _ | r
          · simp [generateNarrative, hI, hP, hT, hR]
          · exfalso
            rcases h with h | h | h | h <;> simp_all
  · intro ind pat tr rk last hI hP hT hR hL
    simp [generateNarrative, hI, hP, hT, hR, hL]
  · intro h1 h2 h3 h4 hc
    obtain ⟨i, hI⟩ := Option.isSome_iff_exists.mp h1
    obtain ⟨p, hP⟩ := Option.isSome_iff_exists.mp h2
    obtain ⟨t, hT⟩ := Option.isSome_iff_exists.mp h3
    obtain ⟨r, hR⟩ := Option.isSome_iff_exists.mp h4
    simp [generateNarrative, hI, hP, hT, hR, hc]

/-- Witness for C4: a one-candle context with all results present renders
the five lines in fixed order. -/
theorem narrative_rendering_witness :
    generateNarrative witCtx = String.intercalate "\n"
      [timestampLine (mkC 1 2), indicatorLine okIndicator, patternLine witPattern,
        trendLine okTrendOut, riskLine okRiskOut] :=
  (narrative_rendering witCtx).2.1 okIndicator witPattern okTrendOut okRiskOut
    (mkC 1 2) rfl rfl rfl rfl rfl

/-- Counterexample to C4 as stated: with every stage result present but an
empty candle list, the narrative is the fixed no-candle string — a single
line without any newline — rather than the five-line report the claim
promises whenever no result is absent. -/
theorem narrative_empty_candles_cex :
    cexCtx.indicator.isSome ∧ cexCtx.pattern.isSome ∧ cexCtx.trend.isSome ∧
    cexCtx.risk.isSome ∧ cexCtx.candles = [] ∧
    generateNarrative cexCtx = "No candle data available" ∧
    Char.ofNat 10 ∉ (generateNarrative cexCtx).data := by
  with_unfolding_all decide

/-- C2 (amended): `runGraphPipeline` returns the context, narrative,
visuals and signals of the final graph state; the accumulated error list
is not part of the returned value — the return is fully determined by the
error-free fields of the final state. -/
theorem pipeline_return_shape :
    (∀ (env : AgentEnv) (c : List Candle),
      (runGraphPipeline env c).ctx =
        { candles := c, indicator := (runGraphState env c).indicator,
          pattern := (runGraphState env c).pattern,
          trend := (runGraphState env c).trend,
          risk := (runGraphState env c).risk } ∧
      (runGraphPipeline env c).visuals = (runGraphState env c).visuals ∧
      (runGraphPipeline env c).signals = (runGraphState env c).signals) ∧
    (∀ (env1 env2 : AgentEnv) (c : List Candle),
      (runGraphState env1 c).indicator = (runGraphState env2 c).indicator →
      (runGraphState env1 c).pattern = (runGraphState env2 c).pattern →
      (runGraphState env1 c).trend = (runGraphState env2 c).trend →
      (runGraphState env1 c).risk = (runGraphState env2 c).risk →
      (runGraphState env1 c).visuals = (runGraphState env2 c).visuals →
      (runGraphState env1 c).signals = (runGraphState env2 c).signals →
      (runGraphState env1 c).narrative = (runGraphState env2 c).narrative →
      runGraphPipeline env1 c = runGraphPipeline env2 c) := by
  constructor
  · intro env c
    exact ⟨rfl, rfl, rfl⟩
  · intro env1 env2 c h1 h2 h3 h4 h5 h6 h7
    simp only [runGraphPipeline]
    rw [h1, h2, h3, h4, h5, h6, h7]

/-- Witness for C2: two runs whose final states agree on everything except
the recorded error message return identical values. -/
theorem pipeline_return_shape_witness :
    runGraphPipeline envIndFailA [] = runGraphPipeline envIndFailB [] :=
  pipeline_return_shape.2 envIndFailA envIndFailB []
    (by with_unfolding_all decide) (by with_unfolding_all decide)
    (by with_unfolding_all decide) (by with_unfolding_all decide)
    (by with_unfolding_all decide) (by with_unfolding_all decide)
    (by with_unfolding_all decide)

/-- Counterexample to C2 as stated: two runs accumulate different error
lists, yet `runGraphPipeline` returns identical values — so the returned
value cannot contain the accumulated error list. -/
theorem pipeline_return_errors_cex :
    runGraphPipeline envIndFailA [] = runGraphPipeline envIndFailB [] ∧
    (runGraphState envIndFailA []).errors ≠ (runGraphState envIndFailB []).errors := by
  with_unfolding_all decide

/-- C3 (amended): the risk result is present only if all three upstream
results are present, and it is present exactly when indicator and trend
succeeded AND the risk agent call on the three upstream results succeeded
(a throwing risk agent leaves risk absent with all three present). -/
theorem risk_gate (env : AgentEnv) (c : List Candle) :
    ((runGraphState env c).risk.isSome →
      (runGraphState env c).indicator.isSome ∧ (runGraphState env c).pattern.isSome ∧
        (runGraphState env c).trend.isSome) ∧
    ((runGraphState env c).risk.isSome ↔
      ∃ i p t r, (runGraphState env c).indicator = some i ∧
        (runGraphState env c).pattern = some p ∧
        (runGraphState env c).trend = some t ∧
        env.risk c i p t = .ok r) := by
  rw [runGraphState_indicator, runGraphState_pattern, runGraphState_trend,
    runGraphState_risk]
  rcases hi : env.indicator c with e | vi <;> rcases ht : env.trend c with e' | vt <;>
    simp [Except.toOption]
  rcases hr : env.risk c vi (PatternAgent env.enrich c) vt with e'' | vr <;>
    simp [hr, Except.toOption]

/-- Witness for C3: in an all-successful run the present risk result
yields the presence of all three upstream results. -/
theorem risk_gate_witness :
    (runGraphState envAllOk []).indicator.isSome ∧
      (runGraphState envAllOk []).pattern.isSome ∧
      (runGraphState envAllOk []).trend.isSome :=
  (risk_gate envAllOk []).1 (by with_unfolding_all decide)

/-- Counterexample to C3 as stated: when the risk agent itself throws, all
three upstream results are present yet risk is absent, refuting the
claimed biconditional. -/
theorem risk_gate_iff_cex :
    ¬ ((runGraphState envRiskFail []).risk.isSome ↔
      ((runGraphState envRiskFail []).indicator.isSome ∧
        (runGraphState envRiskFail []).pattern.isSome ∧
        (runGraphState envRiskFail []).trend.isSome)) := by
  with_unfolding_all decide

end QuantLLM
